import Mathlib

/-!
Verification development for the batch-download orchestration engine of the
YTVideo repository.  The definitions below are a shallow embedding of
`src/services/batch_manager.py` and `src/services/proxy_manager.py`:

* Python dicts are modelled as association lists with a decidable key type
  (`mapGet` / `mapSet` / `mapUpdate` mirror `d[k]`, `d[k] = v` and in-place
  field updates of `d[k]`);
* download IDs (`str(uuid4())` in the source) are modelled as strings whose
  freshness is a side condition of the submission step;
* timestamps (`time.time()`) are abstract naturals supplied by each step;
* the `float` progress percentage is modelled with exact rationals;
* exceptions are modelled with `Except`, and the scheduler thread dying on an
  uncaught exception is recorded by a `crashed` flag in the machine state.
-/

/-- Lookup in an association list, mirroring Python `d[k]` / `d.get(k)`
(first matching key wins; a well-formed dict has distinct keys). -/
def mapGet {κ α : Type} [DecidableEq κ] : List (κ × α) → κ → Option α
  | [], _ => none
  | (k, v) :: t, k2 => if k = k2 then some v else mapGet t k2

/-- Key set of an association list, mirroring `k in d`. -/
def mapKeys {κ α : Type} (l : List (κ × α)) : List κ := l.map Prod.fst

/-- Store into an association list, mirroring Python `d[k] = v`
(replaces the existing binding, else appends a new one). -/
def mapSet {κ α : Type} [DecidableEq κ] : List (κ × α) → κ → α → List (κ × α)
  | [], k, v => [(k, v)]
  | (k2, v2) :: t, k, v => if k2 = k then (k, v) :: t else (k2, v2) :: mapSet t k v

/-- Update the value bound to a key in place, mirroring a Python statement
such as `d[k]["field"] = x` (no-op when the key is absent). -/
def mapUpdate {κ α : Type} [DecidableEq κ] : List (κ × α) → κ → (α → α) → List (κ × α)
  | [], _, _ => []
  | (k2, v2) :: t, k, f => if k2 = k then (k2, f v2) :: t else (k2, v2) :: mapUpdate t k f

theorem mapGet_mapSet_self {κ α : Type} [DecidableEq κ] (l : List (κ × α)) (k : κ) (v : α) :
    mapGet (mapSet l k v) k = some v := by
  induction l with
  | nil => simp [mapSet, mapGet]
  | cons p t ih =>
    obtain ⟨k2, v2⟩ := p
    by_cases h : k2 = k <;> simp [mapSet, mapGet, h, ih]

theorem mapGet_eq_none_iff {κ α : Type} [DecidableEq κ] (l : List (κ × α)) (k : κ) :
    mapGet l k = none ↔ k ∉ mapKeys l := by
  induction l with
  | nil => simp [mapGet, mapKeys]
  | cons p t ih =>
    obtain ⟨k2, v2⟩ := p
    by_cases h : k2 = k
    · subst h
      simp [mapGet, mapKeys]
    · simp only [mapGet, mapKeys, List.map_cons, List.mem_cons, if_neg h]
      rw [mapKeys] at ih
      rw [ih]
      constructor
      · intro hk hor
        rcases hor with hor | hor
        · exact h hor.symm
        · exact hk hor
      · intro hk hmem
        exact hk (Or.inr hmem)

/-- Job status values, the five strings used by `batch_manager.py`. -/
inductive Status where
  | queued
  | downloading
  | completed
  | failed
  | cancelled
deriving DecidableEq, Repr

/-- The terminal-status test `status in ("completed", "failed", "cancelled")`
used at `batch_manager.py` lines 172 and 222. -/
def Status.isTerminal : Status → Bool
  | .completed => true
  | .failed => true
  | .cancelled => true
  | _ => false

/-- One download entry of `BatchManager.downloads`, with the fields built at
`batch_manager.py` lines 70-88.  `progress` is the float percentage, modelled
as an exact rational; timestamps are abstract naturals. -/
structure Job where
  id : String
  url : String
  status : Status
  progress : ℚ
  downloaded_bytes : Nat
  total_bytes : Nat
  speed : Nat
  eta : Nat
  added_at : Nat
  started_at : Option Nat
  completed_at : Option Nat
  use_aria2 : Bool
  format : Option String
  proxy : Option String
  subtitles : Bool
  output_file : Option String
  error : Option String
deriving DecidableEq, Repr

/-- The fresh download entry created by `BatchManager.add_url`
(`batch_manager.py` lines 70-88).  `aria2Avail` is `self.aria2 is not None`. -/
def mkDownloadEntry (id url : String) (useAria2 : Bool) (fmt sp : Option String)
    (subs : Bool) (aria2Avail : Bool) (t : Nat) : Job :=
  { id := id
    url := url
    status := Status.queued
    progress := 0
    downloaded_bytes := 0
    total_bytes := 0
    speed := 0
    eta := 0
    added_at := t
    started_at := none
    completed_at := none
    use_aria2 := useAria2 && aria2Avail
    format := fmt
    proxy := sp
    subtitles := subs
    output_file := none
    error := none }

/-- Embedding of `BatchManager.cancel_download` (`batch_manager.py` lines 156-186) acting on
the `downloads` dict.  Returns the boolean result together with the updated
dict.  The backend cancellation calls at lines 177-180 are external side
effects with no influence on the job record and are not modelled. -/
def cancel_download (l : List (String × Job)) (id : String) (t : Nat) :
    Bool × List (String × Job) :=
  match mapGet l id with
  | none => (false, l)
  | some d =>
    if d.status.isTerminal then (false, l)
    else
      (true, mapUpdate l id (fun j => { j with status := Status.cancelled, completed_at := some t }))

/-- The percentage computed by the progress callback at `batch_manager.py`
line 342: `(downloaded_bytes / total_bytes * 100) if total_bytes > 0 else 0`.
The source computes in floating point; exact rationals are used here. -/
def progressValue (downloaded total : Nat) : ℚ :=
  if 0 < total then (downloaded : ℚ) / (total : ℚ) * 100 else 0

/-- The nested `progress_callback` of `BatchManager._download`
(`batch_manager.py` lines 340-347).  It first enters `self.locks[download_id]`
and then mutates `self.downloads[download_id]`; in Python either subscript
raises `KeyError` when the entry has been removed, modelled by `Except.error`. -/
def progress_callback (locks : List String) (downloads : List (String × Job))
    (id : String) (downloaded total : Nat) : Except String (List (String × Job)) :=
  if id ∈ locks then
    match mapGet downloads id with
    | some _ =>
      Except.ok (mapUpdate downloads id (fun j =>
        { j with
          progress := progressValue downloaded total
          downloaded_bytes := downloaded
          total_bytes := total }))
    | none => Except.error "KeyError"
  else Except.error "KeyError"

/-- The success branch of the result-collection loop
(`batch_manager.py` lines 299-303). -/
def handleSuccess (j : Job) (file : String) (t : Nat) : Job :=
  { j with
    status := Status.completed
    output_file := some file
    completed_at := some t
    progress := 100 }

/-- The failure branch of the result-collection loop
(`batch_manager.py` lines 304-309); `m` is `str(e)`. -/
def handleFailure (j : Job) (m : String) (t : Nat) : Job :=
  { j with
    status := Status.failed
    error := some m
    completed_at := some t }

/-- Python truthiness of an optional string (`None` and `""` are falsy),
used by the `if not proxy` / `if proxy` tests in `_download`. -/
def pyTruthy : Option String → Bool
  | none => false
  | some s => !(s == "")

/-- Proxy resolution at `batch_manager.py` lines 335-337: the job's explicit
proxy wins; otherwise the proxy manager (when present) is queried.
`sourceProxy` is the value `self.proxy_manager.get_proxy()` would return. -/
def resolveProxy (jobProxy : Option String) (pmPresent : Bool)
    (sourceProxy : Option String) : Option String :=
  if !(pyTruthy jobProxy) && pmPresent then sourceProxy else jobProxy

/-- Backend selection inside the `try` of `BatchManager._download`
(`batch_manager.py` lines 349-376).  `aria2Result` / `ytdlpResult` are the
outcomes the respective external downloader would produce; the final branch is
the `ValueError` raised at line 376. -/
def chooseBackendResult (useAria2 aria2Avail isYt : Bool) (url : String)
    (aria2Result ytdlpResult : Except String String) : Except String String :=
  if useAria2 && aria2Avail then aria2Result
  else if isYt then ytdlpResult
  else if aria2Avail then aria2Result
  else Except.error ("URL \x27" ++ url ++ "\x27 is not a YouTube URL and Aria2 is not available")

/-- The observable outcome of `BatchManager._download`
(`batch_manager.py` lines 321-385): the value returned to the future (or the
re-raised exception message) together with the list of arguments of the
`mark_proxy_failure` calls made in the `except` block (lines 380-385). -/
def runDownload (jobProxy : Option String) (pmPresent : Bool) (sourceProxy : Option String)
    (backend : Except String String) : Except String String × List String :=
  let proxy := resolveProxy jobProxy pmPresent sourceProxy
  match backend with
  | Except.ok f => (Except.ok f, [])
  | Except.error m =>
    (Except.error m, if pyTruthy proxy && pmPresent then [proxy.getD ""] else [])

/-- State of `ProxyManager` (`proxy_manager.py`): the proxy list and the
failure-count dict. -/
structure PMState where
  proxies : List String
  failed_proxies : List (String × Nat)
deriving DecidableEq, Repr

/-- Recorded failure count of a proxy (`self.failed_proxies.get(p, 0)`). -/
def failCount (s : PMState) (p : String) : Nat :=
  (mapGet s.failed_proxies p).getD 0

/-- The comprehension `[p for p in self.proxies if p not in self.failed_proxies]`
at `proxy_manager.py` lines 62 and 67. -/
def workingProxies (s : PMState) : List String :=
  s.proxies.filter (fun p => decide (mapGet s.failed_proxies p = none))

/-- Embedding of `ProxyManager._reset_failed_proxies` (`proxy_manager.py` lines 85-90):
deletes every entry with fewer than 5 failures. -/
def reset_failed_proxies (s : PMState) : PMState :=
  { s with failed_proxies := s.failed_proxies.filter (fun q => decide (5 ≤ q.2)) }

/-- Embedding of `ProxyManager.get_proxy` (`proxy_manager.py` lines 54-73).  The call to
`random.choice` on a non-empty candidate list is modelled by selecting the
element at an arbitrary index `k` (taken modulo the length); theorems
quantify over `k`. -/
def get_proxy (s : PMState) (k : Nat) : Option String × PMState :=
  let working := workingProxies s
  if working.isEmpty then
    let s2 := reset_failed_proxies s
    let working2 := workingProxies s2
    if working2.isEmpty then (none, s2)
    else (working2.get? (k % working2.length), s2)
  else (working.get? (k % working.length), s)

/-- Embedding of `ProxyManager.mark_proxy_failure` (`proxy_manager.py` lines 75-83). -/
def mark_proxy_failure (s : PMState) (p : String) : PMState :=
  if p ∈ s.proxies then
    { s with failed_proxies := mapSet s.failed_proxies p (failCount s p + 1) }
  else s

/-- Global state of a `BatchManager` together with the scheduler thread
running `_process_queue`.

* `downloads`, `locks`, `queue` are `self.downloads`, the key set of
  `self.locks`, and the FIFO contents of `self.download_queue`;
* `futures` holds the job IDs that are values of the scheduler's local
  `futures` dict (one outstanding executor future each);
* `dispatching` is the scheduler's local `download_id` between the
  unlocked cancellation check at line 271 and the status write at line 277;
* `running` tells whether the `_process_queue` thread is alive and
  processing, and `crashed` whether it died on an uncaught exception
  (anything other than the `queue.Empty` caught at line 288);
* `aria2` is `self.aria2 is not None`, fixed at construction. -/
structure BMState where
  downloads : List (String × Job)
  locks : List String
  queue : List String
  futures : List String
  dispatching : Option String
  maxConcurrent : Nat
  stopFlag : Bool
  running : Bool
  crashed : Bool
  aria2 : Bool
deriving DecidableEq, Repr

/-- The state right after `BatchManager.__init__` with
`max_concurrent = n` (`batch_manager.py` lines 20-49). -/
def initState (n : Nat) (a : Bool) : BMState :=
  { downloads := []
    locks := []
    queue := []
    futures := []
    dispatching := none
    maxConcurrent := n
    stopFlag := false
    running := false
    crashed := false
    aria2 := a }

/-- Effect of `BatchManager.add_url` (`batch_manager.py` lines 51-97): store a
lock and a fresh queued entry, enqueue the ID, then `_ensure_queue_thread`
(lines 245-255), which restarts a dead scheduler thread with a cleared stop
flag and a fresh empty `futures` dict. -/
def addUrlState (s : BMState) (id url : String) (ua : Bool) (fmt sp : Option String)
    (subs : Bool) (t : Nat) : BMState :=
  { s with
    downloads := mapSet s.downloads id (mkDownloadEntry id url ua fmt sp subs s.aria2 t)
    locks := id :: s.locks
    queue := s.queue ++ [id]
    running := true
    stopFlag := s.stopFlag && s.running
    crashed := s.crashed && s.running
    futures := if s.running then s.futures else []
    dispatching := if s.running then s.dispatching else none }

/-- Effect of `BatchManager.cancel_download` on the state. -/
def cancelState (s : BMState) (id : String) (t : Nat) : BMState :=
  { s with downloads := (cancel_download s.downloads id t).2 }

/-- Effect of `BatchManager.clear_completed` (`batch_manager.py` lines
209-228): every terminal entry is removed from `downloads` and its lock
deleted; queue contents are untouched. -/
def clearState (s : BMState) : BMState :=
  { s with
    downloads := s.downloads.filter (fun p => !p.2.status.isTerminal)
    locks := s.locks.filter (fun id =>
      match mapGet s.downloads id with
      | some j => !j.status.isTerminal
      | none => true) }

/-- Scheduler-thread death on an uncaught exception: the `with` block shuts
the executor down, outstanding workers finish without their results ever
being collected (so their jobs keep whatever status they have), and the
thread exits. -/
def crashState (s : BMState) : BMState :=
  { s with running := false, crashed := true, futures := [], dispatching := none }

/-- The scheduler pops an ID and passes the (unlocked) cancellation check at
line 271; it now holds the ID locally, about to write the status. -/
def dequeueOkState (s : BMState) (id : String) (rest : List String) : BMState :=
  { s with queue := rest, dispatching := some id }

/-- The scheduler pops an ID whose entry is cancelled and skips it
(lines 271-273). -/
def dequeueSkipState (s : BMState) (rest : List String) : BMState :=
  { s with queue := rest }

/-- Lines 276-285: under the job's lock the status becomes `downloading` and
`started_at` is set, and the submitted future is recorded.  (The status write
at line 277 is unconditional: it does not re-check the status read at
line 271.) -/
def commitState (s : BMState) (id : String) (t : Nat) : BMState :=
  { s with
    downloads := mapUpdate s.downloads id (fun j =>
      { j with status := Status.downloading, started_at := some t })
    futures := id :: s.futures
    dispatching := none }

/-- Lines 292-303: a finished future is collected with a successful result. -/
def collectOkState (s : BMState) (id file : String) (t : Nat) : BMState :=
  { s with
    downloads := mapUpdate s.downloads id (fun j => handleSuccess j file t)
    futures := s.futures.erase id }

/-- Lines 292-312, `except` branch: a finished future raised; `str(e)` is
recorded (the write is unconditional, whatever the current status). -/
def collectErrState (s : BMState) (id msg : String) (t : Nat) : BMState :=
  { s with
    downloads := mapUpdate s.downloads id (fun j => handleFailure j msg t)
    futures := s.futures.erase id }

/-- Embedding of `BatchManager.stop` (`batch_manager.py` lines 230-243): sets the stop
flag, then cancels every job whose status is `downloading`. -/
def stopState (s : BMState) (t : Nat) : BMState :=
  { s with
    stopFlag := true
    downloads := s.downloads.map (fun p =>
      if p.2.status = Status.downloading then
        (p.1, { p.2 with status := Status.cancelled, completed_at := some t })
      else p) }

/-- One interleaved step of the batch manager: a caller-thread operation
(`add_url`, `cancel_download`, `clear_completed`, `stop`) or one action of the
`_process_queue` scheduler thread (`batch_manager.py` lines 257-319).  Worker
completion times are not modelled: a collect step may fire for any
outstanding future, abstracting when its worker happens to finish.  The
`Missing` variants are the uncaught `KeyError` raised when a dict subscript
(lines 271, 276, 299 or 306) hits an entry removed by `clear_completed`; the
`collectTimeout` step is the `TimeoutError` that
`list(as_completed(futures.keys(), timeout=0.1))` at line 292 raises whenever
some future is still pending 0.1s after the call; none of these is caught by
the `except queue.Empty` at line 288, so each kills the scheduler thread. -/
inductive Step : BMState → BMState → Prop where
  | addUrl (s : BMState) (id url : String) (ua : Bool) (fmt sp : Option String)
      (subs : Bool) (t : Nat)
      (h1 : mapGet s.downloads id = none) (h2 : id ∉ s.queue)
      (h3 : id ∉ s.futures) (h4 : s.dispatching ≠ some id) (h5 : id ∉ s.locks) :
      Step s (addUrlState s id url ua fmt sp subs t)
  | cancel (s : BMState) (id : String) (t : Nat) :
      Step s (cancelState s id t)
  | clearCompleted (s : BMState) :
      Step s (clearState s)
  | setStop (s : BMState) (t : Nat) :
      Step s (stopState s t)
  | dequeueOk (s : BMState) (id : String) (rest : List String) (j : Job)
      (hr : s.running = true) (hd : s.dispatching = none)
      (hq : s.queue = id :: rest)
      (hcap : s.futures.length < s.maxConcurrent)
      (hj : mapGet s.downloads id = some j)
      (hst : j.status ≠ Status.cancelled) :
      Step s (dequeueOkState s id rest)
  | dequeueSkip (s : BMState) (id : String) (rest : List String) (j : Job)
      (hr : s.running = true) (hd : s.dispatching = none)
      (hq : s.queue = id :: rest)
      (hcap : s.futures.length < s.maxConcurrent)
      (hj : mapGet s.downloads id = some j)
      (hst : j.status = Status.cancelled) :
      Step s (dequeueSkipState s rest)
  | dequeueMissing (s : BMState) (id : String) (rest : List String)
      (hr : s.running = true) (hd : s.dispatching = none)
      (hq : s.queue = id :: rest)
      (hcap : s.futures.length < s.maxConcurrent)
      (hj : mapGet s.downloads id = none) :
      Step s { crashState s with queue := rest }
  | commit (s : BMState) (id : String) (t : Nat) (j : Job)
      (hr : s.running = true) (hd : s.dispatching = some id)
      (hlock : id ∈ s.locks) (hj : mapGet s.downloads id = some j) :
      Step s (commitState s id t)
  | commitMissing (s : BMState) (id : String)
      (hr : s.running = true) (hd : s.dispatching = some id)
      (h : id ∉ s.locks ∨ mapGet s.downloads id = none) :
      Step s (crashState s)
  | collectOk (s : BMState) (id file : String) (t : Nat) (j : Job)
      (hr : s.running = true) (hmem : id ∈ s.futures)
      (hlock : id ∈ s.locks) (hj : mapGet s.downloads id = some j) :
      Step s (collectOkState s id file t)
  | collectErr (s : BMState) (id msg : String) (t : Nat) (j : Job)
      (hr : s.running = true) (hmem : id ∈ s.futures)
      (hlock : id ∈ s.locks) (hj : mapGet s.downloads id = some j) :
      Step s (collectErrState s id msg t)
  | collectMissing (s : BMState) (id : String)
      (hr : s.running = true) (hmem : id ∈ s.futures)
      (h : id ∉ s.locks ∨ mapGet s.downloads id = none) :
      Step s (crashState s)
  | collectTimeout (s : BMState)
      (hr : s.running = true) (hne : s.futures ≠ []) :
      Step s (crashState s)
  | schedExit (s : BMState)
      (hr : s.running = true) (hstop : s.stopFlag = true) (hd : s.dispatching = none) :
      Step s { s with running := false, futures := [] }

/-- Reachability from a freshly constructed manager. -/
inductive Reachable : BMState → Prop where
  | init (n : Nat) (a : Bool) : Reachable (initState n a)
  | step {s t : BMState} : Reachable s → Step s t → Reachable t

/-- Number of entries currently in status `downloading`. -/
def downloadingCount (s : BMState) : Nat :=
  (s.downloads.filter (fun p => p.2.status = Status.downloading)).length

/-- Embedding of `BatchManager.get_download` (`batch_manager.py` lines 188-198). -/
def get_download (s : BMState) (id : String) : Option Job :=
  mapGet s.downloads id

/-- Reference-level model of the `downloads` dict used to settle the snapshot
claim: Python dict values are references to mutable record objects, so
`self.downloads` maps IDs to references and a separate heap maps references
to the current record contents. -/
structure Registry where
  downloads : List (String × Nat)
  heap : List (Nat × Job)
deriving DecidableEq, Repr

/-- Embedding of `BatchManager.get_all_downloads` (`batch_manager.py` lines 200-207):
`self.downloads.copy()` copies the outer dict only, i.e. the id-to-reference
pairs; the referenced record objects are shared. -/
def get_all_downloads (r : Registry) : List (String × Nat) := r.downloads

/-- Embedding of `BatchManager.get_download` at the reference level
(`self.downloads.get(download_id)` returns the live record object). -/
def get_download_ref (r : Registry) (id : String) : Option Nat :=
  mapGet r.downloads id

/-- A worker or scheduler mutating a record object in place (any of the
dictionary writes done under the job lock). -/
def heapWrite (h : List (Nat × Job)) (ref : Nat) (j : Job) : List (Nat × Job) :=
  mapSet h ref j

/-- What a caller sees for `id` when it dereferences a previously returned
snapshot against the current heap. -/
def observe (h : List (Nat × Job)) (snap : List (String × Nat)) (id : String) : Option Job :=
  (mapGet snap id).bind (fun ref => mapGet h ref)

/-- C4: `cancel_download(id)` returns `True` iff `id` is present in the
downloads map with a non-terminal status; for a missing id it returns `False`
(the `not in` check at line 166, no exception is possible on this path) with
the map unchanged; for a job already terminal it returns `False` and leaves
the record unchanged. -/
theorem cancel_download_spec (l : List (String × Job)) (id : String) (t : Nat) :
    ((cancel_download l id t).1 = true ↔
      ∃ j, mapGet l id = some j ∧ j.status.isTerminal = false) ∧
    (mapGet l id = none → cancel_download l id t = (false, l)) ∧
    (∀ j, mapGet l id = some j → j.status.isTerminal = true →
      cancel_download l id t = (false, l)) := by
  refine ⟨?_, ?_, ?_⟩
  · cases hm : mapGet l id with
    | none => simp [cancel_download, hm]
    | some d =>
      by_cases hterm : d.status.isTerminal
      · simp [cancel_download, hm, hterm]
      · simp only [cancel_download, hm, hterm, Bool.false_eq_true, if_false]
        constructor
        · intro _
          exact ⟨d, rfl, by simpa using hterm⟩
        · intro _
          trivial
  · intro hm
    simp [cancel_download, hm]
  · intro j hm hterm
    simp [cancel_download, hm, hterm]

theorem cancel_download_spec_witness :
    cancel_download [] "j1" 7 = (false, []) :=
  (cancel_download_spec [] "j1" 7).2.1 rfl

/-- C9: querying the ID returned by `add_url` immediately after submission
yields a record with status `queued`, progress `0`, the submitted url,
zero byte counters, and unset `started_at`, `completed_at`, `output_file`
and `error`. -/
theorem add_url_roundtrip (s : BMState) (id url : String) (ua : Bool)
    (fmt sp : Option String) (subs : Bool) (t : Nat) :
    get_download (addUrlState s id url ua fmt sp subs t) id =
      some (mkDownloadEntry id url ua fmt sp subs s.aria2 t) ∧
    (mkDownloadEntry id url ua fmt sp subs s.aria2 t).status = Status.queued ∧
    (mkDownloadEntry id url ua fmt sp subs s.aria2 t).progress = 0 ∧
    (mkDownloadEntry id url ua fmt sp subs s.aria2 t).url = url ∧
    (mkDownloadEntry id url ua fmt sp subs s.aria2 t).downloaded_bytes = 0 ∧
    (mkDownloadEntry id url ua fmt sp subs s.aria2 t).total_bytes = 0 ∧
    (mkDownloadEntry id url ua fmt sp subs s.aria2 t).started_at = none ∧
    (mkDownloadEntry id url ua fmt sp subs s.aria2 t).completed_at = none ∧
    (mkDownloadEntry id url ua fmt sp subs s.aria2 t).output_file = none ∧
    (mkDownloadEntry id url ua fmt sp subs s.aria2 t).error = none := by
  refine ⟨?_, rfl, rfl, rfl, rfl, rfl, rfl, rfl, rfl, rfl⟩
  unfold get_download addUrlState
  exact mapGet_mapSet_self s.downloads id _

/-- C5 counterexample: the progress computation at line 342 is neither
clamped to [0,100] nor monotone.  A backend report of 150 of 100 bytes
yields progress 150 > 100, and a report whose `total_bytes` is 0 (unknown)
arriving after a 50-of-100 report resets progress from 50 to 0, a strict
decrease while the job is still downloading. -/
theorem progress_monotone_counterexample :
    (100 : ℚ) < progressValue 150 100 ∧
    progressValue 60 0 < progressValue 50 100 := by
  norm_num [progressValue]

/-- C5 amended: the progress values written by the callback stay in [0,100]
and are non-decreasing provided the backend reports non-decreasing
`downloaded_bytes` bounded by a fixed positive `total_bytes`; the completion
handler then writes exactly 100, which cannot decrease such a value. -/
theorem progress_monotone_amended (d1 d2 T : Nat) (hT : 0 < T) (hm : d1 ≤ d2)
    (hb : d2 ≤ T) :
    0 ≤ progressValue d1 T ∧
    progressValue d1 T ≤ progressValue d2 T ∧
    progressValue d2 T ≤ 100 ∧
    (∀ (j : Job) (f : String) (t : Nat), (handleSuccess j f t).progress = 100) := by
  have hT' : (0 : ℚ) < (T : ℚ) := by exact_mod_cast hT
  have hm' : (d1 : ℚ) ≤ (d2 : ℚ) := by exact_mod_cast hm
  have hb' : (d2 : ℚ) ≤ (T : ℚ) := by exact_mod_cast hb
  refine ⟨?_, ?_, ?_, fun _ _ _ => rfl⟩
  · rw [progressValue, if_pos hT]
    positivity
  · rw [progressValue, progressValue, if_pos hT, if_pos hT]
    gcongr
  · rw [progressValue, if_pos hT]
    calc (d2 : ℚ) / (T : ℚ) * 100 ≤ (T : ℚ) / (T : ℚ) * 100 := by gcongr
    _ = 100 := by rw [div_self (ne_of_gt hT'), one_mul]

theorem progress_monotone_amended_witness :
    progressValue 1 4 ≤ progressValue 2 4 :=
  (progress_monotone_amended 1 2 4 (by decide) (by decide) (by decide)).2.1

/-- A queued job record used by the snapshot counterexample. -/
def c6job : Job := mkDownloadEntry "j" "u" false none none false false 0

/-- A registry holding one queued job behind reference 0. -/
def c6reg : Registry := { downloads := [("j", 0)], heap := [(0, c6job)] }

/-- The value `get_all_downloads` hands to the caller for `c6reg`. -/
def c6snap : List (String × Nat) := get_all_downloads c6reg

/-- The heap after a scheduler worker mutates the record object in place
(status to `downloading`, progress to 50), after the snapshot was taken. -/
def c6heap2 : List (Nat × Job) :=
  heapWrite c6reg.heap 0 { c6job with status := Status.downloading, progress := 50 }

/-- C6 counterexample: `get_all_downloads` is `self.downloads.copy()`, a
shallow copy.  Dereferencing the very snapshot returned before the worker
mutation now shows the mutated record: the caller observes status
`downloading` where it saw `queued` at call time, so later mutations are
observable through the returned value. -/
theorem get_all_downloads_not_snapshot :
    (observe c6reg.heap c6snap "j").map Job.status = some Status.queued ∧
    (observe c6heap2 c6snap "j").map Job.status = some Status.downloading := by
  exact ⟨rfl, rfl⟩

/-- C6 amended: `get_all_downloads` copies only the outer dict, so the
snapshot's id-to-record-reference pairs are fixed at call time, but each
record is shared by reference and later field mutations are observable
through the returned value; `get_download` likewise returns the live record
reference, not a copy. -/
theorem get_all_downloads_shallow (r : Registry) (id : String) (ref : Nat) (j : Job)
    (h : mapGet (get_all_downloads r) id = some ref) :
    get_all_downloads r = r.downloads ∧
    observe (heapWrite r.heap ref j) (get_all_downloads r) id = some j ∧
    get_download_ref r id = mapGet r.downloads id := by
  refine ⟨rfl, ?_, rfl⟩
  rw [observe, h]
  simp [heapWrite, mapGet_mapSet_self]

theorem get_all_downloads_shallow_witness :
    observe (heapWrite c6reg.heap 0 c6job) (get_all_downloads c6reg) "j" = some c6job :=
  (get_all_downloads_shallow c6reg "j" 0 c6job rfl).2.1

/-- C7: when the downloader call raises with message `m`, `_download`
re-raises it unchanged, so the collection loop records status `failed`, an
`error` field equal to `m` and a `completed_at` timestamp; and whenever a
proxy was resolved for the job (explicitly or from the proxy manager, which
must be configured for `mark_proxy_failure` to exist), the `except` block
calls `mark_proxy_failure` exactly once, with exactly that proxy. -/
theorem download_failure_spec (jp : Option String) (pm : Bool) (sp : Option String)
    (m : String) (j : Job) (t : Nat) :
    (runDownload jp pm sp (Except.error m)).1 = Except.error m ∧
    (handleFailure j m t).status = Status.failed ∧
    (handleFailure j m t).error = some m ∧
    (handleFailure j m t).completed_at = some t ∧
    (∀ p : String, resolveProxy jp pm sp = some p → p ≠ "" → pm = true →
      (runDownload jp pm sp (Except.error m)).2 = [p]) := by
  refine ⟨rfl, rfl, rfl, rfl, ?_⟩
  intro p hres hp hpm
  subst hpm
  simp [runDownload, hres, pyTruthy, hp]

theorem download_failure_spec_witness :
    (runDownload (some "px") true none (Except.error "x")).2 = ["px"] :=
  (download_failure_spec (some "px") true none "x" c6job 3).2.2.2.2 "px" rfl
    (by decide) rfl

/-- A job cancelled while its worker was still running: terminal, so
`clear_completed` removes it. -/
def c8job : Job :=
  { mkDownloadEntry "j" "u" false none none false false 0 with
    status := Status.cancelled
    completed_at := some 5 }

/-- A manager state holding only that terminal job. -/
def c8state : BMState :=
  { initState 3 false with
    downloads := [("j", c8job)]
    locks := ["j"]
    running := true }

/-- C8: a registry update for a cleared job ID is not a no-op.  After
`clear_completed` removes the record and its lock, the progress callback for
that ID hits `self.locks[download_id]` (line 341) and raises `KeyError`
instead of completing silently. -/
theorem progress_callback_cleared_raises :
    (clearState c8state).downloads = [] ∧
    (clearState c8state).locks = [] ∧
    progress_callback (clearState c8state).locks (clearState c8state).downloads
      "j" 10 20 = Except.error "KeyError" := by
  exact ⟨rfl, rfl, rfl⟩

theorem mapGet_filter_of_none {κ α : Type} [DecidableEq κ] (l : List (κ × α)) (k : κ)
    (g : κ × α → Bool) (h : mapGet l k = none) : mapGet (l.filter g) k = none := by
  induction l with
  | nil => exact h
  | cons p t ih =>
    obtain ⟨k2, v2⟩ := p
    by_cases hk : k2 = k
    · rw [mapGet, if_pos hk] at h
      exact absurd h (by simp)
    · rw [mapGet, if_neg hk] at h
      by_cases hg : g (k2, v2) = true
      · rw [List.filter_cons_of_pos hg, mapGet, if_neg hk]
        exact ih h
      · rw [List.filter_cons_of_neg (by simpa using hg)]
        exact ih h

/-- Under distinct keys, filtering an association list by a predicate on the
value commutes with lookup. -/
theorem mapGet_filterVal {κ α : Type} [DecidableEq κ] (l : List (κ × α)) (k : κ)
    (f : α → Bool) (hnd : (l.map Prod.fst).Nodup) :
    mapGet (l.filter (fun q => f q.2)) k =
      (mapGet l k).bind (fun v => if f v then some v else none) := by
  induction l with
  | nil => simp [mapGet]
  | cons p t ih =>
    obtain ⟨k2, v2⟩ := p
    rw [List.map_cons, List.nodup_cons] at hnd
    by_cases hk : k2 = k
    · subst hk
      have ht : mapGet t k2 = none := (mapGet_eq_none_iff t k2).mpr hnd.1
      by_cases hf : f v2 = true
      · simp [List.filter_cons, hf, mapGet]
      · simp [List.filter_cons, hf, mapGet, mapGet_filter_of_none t k2 _ ht]
    · by_cases hf : f v2 = true
      · simp [List.filter_cons, hf, mapGet, hk, ih hnd.2]
      · simp [List.filter_cons, hf, mapGet, hk, ih hnd.2]

theorem mem_workingProxies (s : PMState) (p : String) :
    p ∈ workingProxies s ↔ p ∈ s.proxies ∧ mapGet s.failed_proxies p = none := by
  simp [workingProxies, List.mem_filter]

theorem mapGet_reset_eq_none_iff (s : PMState) (p : String)
    (hnd : (s.failed_proxies.map Prod.fst).Nodup) :
    mapGet (reset_failed_proxies s).failed_proxies p = none ↔ failCount s p < 5 := by
  show mapGet (s.failed_proxies.filter (fun q => decide (5 ≤ q.2))) p = none ↔ _
  rw [mapGet_filterVal s.failed_proxies p (fun v => decide (5 ≤ v)) hnd]
  cases h : mapGet s.failed_proxies p with
  | none => simp [failCount, h]
  | some v =>
    by_cases hv : 5 ≤ v
    · simp [failCount, h, hv, Nat.not_lt.mpr hv]
    · simp [failCount, h, hv, Nat.lt_of_not_le hv]

theorem get?_mod_ne_none (l : List String) (h : l ≠ []) (k : Nat) :
    l.get? (k % l.length) ≠ none := by
  have hlen : 0 < l.length := List.length_pos.mpr h
  intro hcontra
  rw [List.get?_eq_none] at hcontra
  exact absurd (Nat.mod_lt k hlen) (Nat.not_lt.mpr hcontra)

theorem workingProxies_empty_iff (s : PMState) :
    workingProxies s = [] ↔ ∀ p ∈ s.proxies, mapGet s.failed_proxies p ≠ none := by
  rw [workingProxies, List.filter_eq_nil_iff]
  constructor
  · intro h p hp
    have := h p hp
    simpa using this
  · intro h p hp
    simpa using h p hp

theorem failCount_eq_zero_of_working (s : PMState) (p : String)
    (h : p ∈ workingProxies s) : failCount s p = 0 := by
  rw [mem_workingProxies] at h
  rw [failCount, h.2]
  rfl

/-- C10: `get_proxy` never returns a proxy whose recorded failure count is 5
or more; it returns `None` exactly when the proxy list is empty or every
listed proxy has at least 5 recorded failures; and when every listed proxy
has at least one recorded failure, the call erases the failure counts of the
proxies with fewer than 5 failures (keeping only the entries at 5 or more),
reinstating those proxies as candidates.  The hypothesis states that the
failure dict has distinct keys, as every Python dict does. -/
theorem get_proxy_spec (s : PMState) (k : Nat)
    (hnd : (s.failed_proxies.map Prod.fst).Nodup) :
    (∀ p : String, (get_proxy s k).1 = some p → failCount s p < 5) ∧
    ((get_proxy s k).1 = none ↔
      (s.proxies = [] ∨ ∀ p ∈ s.proxies, 5 ≤ failCount s p)) ∧
    ((∀ p ∈ s.proxies, 1 ≤ failCount s p) →
      (get_proxy s k).2.failed_proxies =
        s.failed_proxies.filter (fun q => decide (5 ≤ q.2))) := by
  have hpr : (reset_failed_proxies s).proxies = s.proxies := rfl
  by_cases h1 : (workingProxies s).isEmpty
  · by_cases h2 : (workingProxies (reset_failed_proxies s)).isEmpty
    · have hres : get_proxy s k = (none, reset_failed_proxies s) := by
        rw [get_proxy]
        simp only [h1, h2, if_true]
      have h2' : workingProxies (reset_failed_proxies s) = [] :=
        List.isEmpty_iff.mp h2
      refine ⟨?_, ?_, ?_⟩
      · intro p hp
        rw [hres] at hp
        exact absurd hp (by simp)
      · rw [hres]
        simp only [true_iff]
        refine Or.inr (fun p hp => ?_)
        have := (workingProxies_empty_iff (reset_failed_proxies s)).mp h2' p
          (by rw [hpr]; exact hp)
        have hno : ¬(failCount s p < 5) := fun hc =>
          this ((mapGet_reset_eq_none_iff s p hnd).mpr hc)
        exact Nat.le_of_not_lt hno
      · intro _
        rw [hres]
        rfl
    · have hne : workingProxies (reset_failed_proxies s) ≠ [] := by
        intro hc
        rw [hc] at h2
        exact h2 rfl
      have hres : get_proxy s k =
          ((workingProxies (reset_failed_proxies s)).get?
            (k % (workingProxies (reset_failed_proxies s)).length),
           reset_failed_proxies s) := by
        rw [get_proxy]
        simp only [h1, h2, if_true, Bool.false_eq_true, if_false]
      refine ⟨?_, ?_, ?_⟩
      · intro p hp
        rw [hres] at hp
        have hmem : p ∈ workingProxies (reset_failed_proxies s) := List.get?_mem hp
        rw [mem_workingProxies] at hmem
        exact (mapGet_reset_eq_none_iff s p hnd).mp hmem.2
      · rw [hres]
        simp only
        constructor
        · intro hc
          exact absurd hc (get?_mod_ne_none _ hne k)
        · intro hc
          obtain ⟨p, hpm⟩ := List.exists_mem_of_ne_nil _ hne
          have hmem := hpm
          rw [mem_workingProxies] at hmem
          have hplt : failCount s p < 5 := (mapGet_reset_eq_none_iff s p hnd).mp hmem.2
          have hpp : p ∈ s.proxies := by rw [← hpr]; exact hmem.1
          rcases hc with hc | hc
          · rw [hc] at hpp
            exact absurd hpp (List.not_mem_nil p)
          · exact absurd (hc p hpp) (Nat.not_le.mpr hplt)
      · intro _
        rw [hres]
        rfl
  · have hne : workingProxies s ≠ [] := by
      intro hc
      rw [hc] at h1
      exact h1 rfl
    have hres : get_proxy s k =
        ((workingProxies s).get? (k % (workingProxies s).length), s) := by
      rw [get_proxy]
      simp only [h1, Bool.false_eq_true, if_false]
    obtain ⟨q, hqm⟩ := List.exists_mem_of_ne_nil _ hne
    have hq0 : failCount s q = 0 := failCount_eq_zero_of_working s q hqm
    have hqp : q ∈ s.proxies := (mem_workingProxies s q).mp hqm |>.1
    refine ⟨?_, ?_, ?_⟩
    · intro p hp
      rw [hres] at hp
      have hmem : p ∈ workingProxies s := List.get?_mem hp
      rw [failCount_eq_zero_of_working s p hmem]
      decide
    · rw [hres]
      simp only
      constructor
      · intro hc
        exact absurd hc (get?_mod_ne_none _ hne k)
      · intro hc
        rcases hc with hc | hc
        · rw [hc] at hqp
          exact absurd hqp (List.not_mem_nil q)
        · have := hc q hqp
          rw [hq0] at this
          exact absurd this (by decide)
    · intro hall
      have := hall q hqp
      rw [hq0] at this
      exact absurd this (by decide)

theorem get_proxy_spec_witness :
    (get_proxy { proxies := ["pa", "pb"], failed_proxies := [("pa", 5), ("pb", 2)] } 0).1 =
        none ↔ ((["pa", "pb"] : List String) = [] ∨
      ∀ p ∈ (["pa", "pb"] : List String), 5 ≤
        failCount { proxies := ["pa", "pb"], failed_proxies := [("pa", 5), ("pb", 2)] } p) :=
  (get_proxy_spec { proxies := ["pa", "pb"], failed_proxies := [("pa", 5), ("pb", 2)] } 0
    (by decide)).2.1

/-- Trace for the concurrency-bound violation, with `max_concurrent = 2`:
submit jobs A and C; cancel C while it is still queued; `clear_completed`
removes C's record and lock but C's ID stays in the FIFO queue. -/
def c1s0 : BMState := initState 2 false

def c1s1 : BMState := addUrlState c1s0 "A" "uA" false none none false 0

def c1s2 : BMState := addUrlState c1s1 "C" "uC" false none none false 1

def c1s3 : BMState := cancelState c1s2 "C" 2

def c1s4 : BMState := clearState c1s3

/-- The scheduler dispatches A (one slot of two used) ... -/
def c1s5 : BMState := dequeueOkState c1s4 "A" ["C"]

def c1s6 : BMState := commitState c1s5 "A" 3

/-- Next the scheduler dequeues the cleared ID C: `self.downloads` indexed at line
271 raises `KeyError`, which the `except queue.Empty` at line 288 does not
catch, so `_process_queue` dies; A's worker finishes without its result ever
being collected, leaving A in status `downloading` forever. -/
def c1s7 : BMState := { crashState c1s6 with queue := [] }

/-- Then `add_url` restarts the scheduler thread with a fresh empty `futures`
dict; the restarted loop knows nothing about A ... -/
def c1s8 : BMState := addUrlState c1s7 "D" "uD" false none none false 4

def c1s9 : BMState := dequeueOkState c1s8 "D" []

def c1s10 : BMState := commitState c1s9 "D" 5

def c1s11 : BMState := addUrlState c1s10 "E" "uE" false none none false 6

def c1s12 : BMState := dequeueOkState c1s11 "E" []

/-- Finally the restarted loop dispatches D and E, giving three jobs in status `downloading`. -/
def c1s13 : BMState := commitState c1s12 "E" 7

/-- C1: the bound "at most `max_concurrent` jobs downloading" is violated on
a reachable state.  With `max_concurrent = 2`, after the scheduler thread
dies on the uncaught `KeyError` of a dequeued-but-cleared job ID and is
restarted by `add_url` with an empty `futures` dict, the job left
`downloading` by the dead loop is forgotten and two more jobs are
dispatched: three jobs are simultaneously in status `downloading`. -/
theorem max_concurrent_bound_violated :
    Reachable c1s13 ∧ c1s13.maxConcurrent = 2 ∧ downloadingCount c1s13 = 3 := by
  refine ⟨?_, rfl, rfl⟩
  have h0 : Reachable c1s0 := Reachable.init 2 false
  have h1 : Reachable c1s1 := h0.step
    (Step.addUrl c1s0 "A" "uA" false none none false 0 rfl (by decide) (by decide)
      (by decide) (by decide))
  have h2 : Reachable c1s2 := h1.step
    (Step.addUrl c1s1 "C" "uC" false none none false 1 rfl (by decide) (by decide)
      (by decide) (by decide))
  have h3 : Reachable c1s3 := h2.step (Step.cancel c1s2 "C" 2)
  have h4 : Reachable c1s4 := h3.step (Step.clearCompleted c1s3)
  have h5 : Reachable c1s5 := h4.step
    (Step.dequeueOk c1s4 "A" ["C"] (mkDownloadEntry "A" "uA" false none none false false 0)
      rfl rfl rfl (by decide) rfl (by decide))
  have h6 : Reachable c1s6 := h5.step
    (Step.commit c1s5 "A" 3 (mkDownloadEntry "A" "uA" false none none false false 0)
      rfl rfl (by decide) rfl)
  have h7 : Reachable c1s7 := h6.step
    (Step.dequeueMissing c1s6 "C" [] rfl rfl rfl (by decide) rfl)
  have h8 : Reachable c1s8 := h7.step
    (Step.addUrl c1s7 "D" "uD" false none none false 4 rfl (by decide) (by decide)
      (by decide) (by decide))
  have h9 : Reachable c1s9 := h8.step
    (Step.dequeueOk c1s8 "D" [] (mkDownloadEntry "D" "uD" false none none false false 4)
      rfl rfl rfl (by decide) rfl (by decide))
  have h10 : Reachable c1s10 := h9.step
    (Step.commit c1s9 "D" 5 (mkDownloadEntry "D" "uD" false none none false false 4)
      rfl rfl (by decide) rfl)
  have h11 : Reachable c1s11 := h10.step
    (Step.addUrl c1s10 "E" "uE" false none none false 6 rfl (by decide) (by decide)
      (by decide) (by decide))
  have h12 : Reachable c1s12 := h11.step
    (Step.dequeueOk c1s11 "E" [] (mkDownloadEntry "E" "uE" false none none false false 6)
      rfl rfl rfl (by decide) rfl (by decide))
  exact h12.step
    (Step.commit c1s12 "E" 7 (mkDownloadEntry "E" "uE" false none none false false 6)
      rfl rfl (by decide) rfl)

/-- Trace for the cancelled-to-downloading race, with `max_concurrent = 1`:
submit J, then the scheduler pops J and passes the cancellation check at
line 271 (done without holding J's lock). -/
def c2s0 : BMState := initState 1 false

def c2s1 : BMState := addUrlState c2s0 "J" "uJ" false none none false 0

def c2s2 : BMState := dequeueOkState c2s1 "J" []

/-- A caller now cancels J: `cancel_download` takes the lock, sees status
`queued` (not terminal), sets `cancelled` and returns `True`. -/
def c2s3 : BMState := cancelState c2s2 "J" 1

/-- The scheduler then performs the unconditional write at line 277, moving
the already-cancelled J to `downloading`. -/
def c2s4 : BMState := commitState c2s3 "J" 2

/-- C2: a job whose status is `cancelled` is subsequently set to
`downloading`.  The check at line 271 is done without the job's lock, so a
cancellation landing between that check and the status write at line 277 is
overwritten: the terminal state `cancelled` is not absorbing. -/
theorem cancelled_job_redispatched :
    Reachable c2s3 ∧
    (get_download c2s3 "J").map Job.status = some Status.cancelled ∧
    (cancel_download c2s2.downloads "J" 1).1 = true ∧
    Step c2s3 c2s4 ∧
    (get_download c2s4 "J").map Job.status = some Status.downloading := by
  refine ⟨?_, rfl, rfl, ?_, rfl⟩
  · have h0 : Reachable c2s0 := Reachable.init 1 false
    have h1 : Reachable c2s1 := h0.step
      (Step.addUrl c2s0 "J" "uJ" false none none false 0 rfl (by decide) (by decide)
        (by decide) (by decide))
    have h2 : Reachable c2s2 := h1.step
      (Step.dequeueOk c2s1 "J" [] (mkDownloadEntry "J" "uJ" false none none false false 0)
        rfl rfl rfl (by decide) rfl (by decide))
    exact h2.step (Step.cancel c2s2 "J" 1)
  · exact Step.commit c2s3 "J" 2
      { mkDownloadEntry "J" "uJ" false none none false false 0 with
        status := Status.cancelled, completed_at := some 1 }
      rfl rfl (by decide) rfl

/-- Trace for the scheduler-loop death, with `max_concurrent = 1`: submit C,
cancel it while queued, clear it; its ID is still in the FIFO queue. -/
def c3s0 : BMState := initState 1 false

def c3s1 : BMState := addUrlState c3s0 "C" "uC" false none none false 0

def c3s2 : BMState := cancelState c3s1 "C" 1

def c3s3 : BMState := clearState c3s2

/-- The scheduler dequeues the cleared ID: `self.downloads[download_id]` at
line 271 raises `KeyError`; only `queue.Empty` is caught (line 288), so the
`_process_queue` thread dies. -/
def c3s4 : BMState := { crashState c3s3 with queue := [] }

/-- C3: the scheduler loop terminates without the stop flag being set.  A
dequeued job ID whose record was already cleared makes the loop die on an
uncaught `KeyError` instead of being skipped: the exception is not confined
to the job, and the loop exits although `stop_flag` is false. -/
theorem scheduler_loop_killed_by_cleared_id :
    Reachable c3s4 ∧ c3s4.crashed = true ∧ c3s4.stopFlag = false ∧
    c3s4.running = false := by
  refine ⟨?_, rfl, rfl, rfl⟩
  have h0 : Reachable c3s0 := Reachable.init 1 false
  have h1 : Reachable c3s1 := h0.step
    (Step.addUrl c3s0 "C" "uC" false none none false 0 rfl (by decide) (by decide)
      (by decide) (by decide))
  have h2 : Reachable c3s2 := h1.step (Step.cancel c3s1 "C" 1)
  have h3 : Reachable c3s3 := h2.step (Step.clearCompleted c3s2)
  exact h3.step (Step.dequeueMissing c3s3 "C" [] rfl rfl rfl (by decide) rfl)
